import Mathlib

/-!
Verification of the CloudAPIClient error-normalization and retry layer
(`backend/app/services/cloud_api_client.py`).

The embedding models one logical operation as a function of the client
configuration and of the *remote behaviour*: a map from attempt index to the
outcome of that attempt (an HTTP response, a timeout, a connection-level
network failure, or any other unexpected exception raised while sending).
`make_request` mirrors `CloudAPIClient._make_request` line by line: the
attempt loop is fuel recursion (fuel = the `range(attempts)` bound), each
iteration either classifies a received response, retries on a transient
failure when attempts remain, or returns a terminal error.  The function also
returns the list of HTTP requests actually sent, so attempt counts and header
contents are observable.
-/

/-- JSON values, the shape of decoded response bodies and request payloads. -/
inductive Json where
  | null : Json
  | bool : Bool → Json
  | num : Int → Json
  | str : String → Json
  | arr : List Json → Json
  | obj : List (String × Json) → Json
deriving Repr

/-- First-match association-list lookup, modelling Python `dict.get(key)` on a
JSON-decoded object (JSON objects decoded by the client have distinct keys). -/
def lookupField : List (String × Json) → String → Option Json
  | [], _ => none
  | (k, v) :: rest, key => if k = key then some v else lookupField rest key

/-- `ErrorType` enumeration from the source. -/
inductive ErrorType where
  | unauthorized
  | timeout
  | network
  | serverError
  | notFound
  | validation
  | conflict
  | unknown
deriving Repr, DecidableEq

/-- `APIResult` dataclass: the standardized result object for all API calls.
`data` and `detail` hold JSON-like values (Python is dynamically typed: `data`
may be decoded JSON or raw text, `detail` is normally a string but a 409/422
body may supply any JSON value for its `detail` field). -/
structure APIResult where
  ok : Bool
  data : Option Json
  error_type : Option ErrorType
  status : Option Nat
  detail : Option Json
deriving Repr

/-- An HTTP response as observed by the client: its status code, its raw body
text, and the outcome of `response.json()` (`none` when decoding raises). -/
structure HttpResponse where
  status_code : Nat
  text : String
  jsonval : Option Json
deriving Repr

/-- Outcome of one request attempt: a response was received, or
`httpx.TimeoutException`, or `httpx.NetworkError`/`httpx.ConnectError`, or any
other unexpected exception (carrying `str(e)`). -/
inductive AttemptOutcome where
  | resp (r : HttpResponse)
  | timeout
  | networkError
  | otherExc (msg : String)
deriving Repr

/-- The remote behaviour of one logical operation: the outcome the network
would deliver for each attempt index. -/
def Behaviour : Type := Nat → AttemptOutcome

/-- Client configuration fixed by `CloudAPIClient.__init__`. -/
structure ClientConfig where
  base_url : String
  admin_token : String
  timeout : Nat
  max_retries : Nat
deriving Repr, DecidableEq

/-- Python `base_url.rstrip('/')`: remove every trailing slash. -/
def rstripSlashes (s : String) : String :=
  String.mk ((s.data.reverse.dropWhile (fun c => c = '/')).reverse)

/-- `CloudAPIClient.__init__`: normalizes the base URL and stores the
configuration (defaults in the source: timeout 10, max_retries 2). -/
def clientInit (base_url admin_token : String) (timeout max_retries : Nat) :
    ClientConfig :=
  { base_url := rstripSlashes base_url
    admin_token := admin_token
    timeout := timeout
    max_retries := max_retries }

/-- `self.headers` built in `__init__`: bearer token plus JSON content type. -/
def ClientConfig.headers (c : ClientConfig) : List (String × String) :=
  [("Authorization", "Bearer " ++ c.admin_token),
   ("Content-Type", "application/json")]

/-- One outbound HTTP request as handed to `httpx`. -/
structure SentRequest where
  method : String
  url : String
  headers : List (String × String)
  jsonBody : Option Json
deriving Repr

/-- The request `_make_request` sends on every attempt:
`client.request(method=method, url=url, headers=self.headers, **kwargs)`. -/
def requestOf (c : ClientConfig) (method endpoint : String)
    (jsonBody : Option Json) : SentRequest :=
  { method := method
    url := c.base_url ++ endpoint
    headers := c.headers
    jsonBody := jsonBody }

/-- Detail extraction for 409/422: `response.json().get("detail", fallback)`,
with the bare `except` clause mapping any failure (body not JSON, or not a
JSON object) to the fallback string. -/
def jsonDetail (r : HttpResponse) (fallback : String) : Json :=
  match r.jsonval with
  | some (Json.obj fields) =>
      match lookupField fields "detail" with
      | some v => v
      | none => Json.str fallback
  | _ => Json.str fallback

/-- The response-classification block of `_make_request` (source lines
97-164): maps a received HTTP response to an `APIResult`. -/
def classifyResponse (r : HttpResponse) : APIResult :=
  if r.status_code = 200 ∨ r.status_code = 201 ∨ r.status_code = 204 then
    if r.status_code = 204 ∨ r.text = "" then
      { ok := true, data := none, error_type := none,
        status := some r.status_code, detail := none }
    else
      match r.jsonval with
      | some d =>
          { ok := true, data := some d, error_type := none,
            status := some r.status_code, detail := none }
      | none =>
          { ok := true, data := none, error_type := none,
            status := some r.status_code, detail := none }
  else if r.status_code = 401 then
    { ok := false, data := none, error_type := some ErrorType.unauthorized,
      status := some 401,
      detail := some (Json.str "Cloud API authentication failed") }
  else if r.status_code = 404 then
    { ok := false, data := none, error_type := some ErrorType.notFound,
      status := some 404, detail := some (Json.str "Resource not found") }
  else if r.status_code = 409 then
    { ok := false, data := none, error_type := some ErrorType.conflict,
      status := some 409, detail := some (jsonDetail r "Conflict error") }
  else if r.status_code = 422 then
    { ok := false, data := none, error_type := some ErrorType.validation,
      status := some 422, detail := some (jsonDetail r "Validation error") }
  else if 500 ≤ r.status_code then
    { ok := false, data := none, error_type := some ErrorType.serverError,
      status := some r.status_code,
      detail := some (Json.str "Cloud API server error") }
  else
    { ok := false, data := none, error_type := some ErrorType.unknown,
      status := some r.status_code,
      detail := some (Json.str ("Unexpected status: " ++ toString r.status_code)) }

/-- Terminal result after exhausting retries on a timeout (lines 170-175). -/
def timeoutResult : APIResult :=
  { ok := false, data := none, error_type := some ErrorType.timeout,
    status := none, detail := some (Json.str "Cloud API request timeout") }

/-- Terminal result after exhausting retries on a network failure
(lines 181-186). -/
def networkResult : APIResult :=
  { ok := false, data := none, error_type := some ErrorType.network,
    status := none, detail := some (Json.str "Cloud API unavailable") }

/-- Terminal result for any other unexpected exception (lines 189-194). -/
def unknownExcResult (msg : String) : APIResult :=
  { ok := false, data := none, error_type := some ErrorType.unknown,
    status := none, detail := some (Json.str ("Unexpected error: " ++ msg)) }

/-- The fallback result after the loop (lines 197-202, commented in the
source "Should never reach here, but just in case"). -/
def fallbackResult : APIResult :=
  { ok := false, data := none, error_type := some ErrorType.unknown,
    status := none, detail := some (Json.str "Request failed after retries") }

/-- `attempts = self.max_retries + 1 if (retry and method == "GET") else 1`. -/
def numAttempts (c : ClientConfig) (method : String) (retry : Bool) : Nat :=
  if retry ∧ method = "GET" then c.max_retries + 1 else 1

/-- The `for attempt in range(attempts)` loop of `_make_request`.  `fuel` is
the number of loop iterations still available and `attempt` the current loop
index; `none` models the loop completing without an early `return` (the fall
through to the fallback result).  Each iteration sends `req` once; on a
received response it returns the classification, on a timeout or network
failure it sleeps and continues when `attempt < attempts - 1` and otherwise
returns the terminal error, and on any other exception it returns at once. -/
def attemptLoop (req : SentRequest) (b : Behaviour) (attempts : Nat) :
    Nat → Nat → Option (APIResult × List SentRequest)
  | _, 0 => none
  | attempt, fuel + 1 =>
    match b attempt with
    | AttemptOutcome.resp r => some (classifyResponse r, [req])
    | AttemptOutcome.timeout =>
        if attempt < attempts - 1 then
          (attemptLoop req b attempts (attempt + 1) fuel).map
            (fun res => (res.1, req :: res.2))
        else some (timeoutResult, [req])
    | AttemptOutcome.networkError =>
        if attempt < attempts - 1 then
          (attemptLoop req b attempts (attempt + 1) fuel).map
            (fun res => (res.1, req :: res.2))
        else some (networkResult, [req])
    | AttemptOutcome.otherExc msg => some (unknownExcResult msg, [req])

/-- `CloudAPIClient._make_request`: runs the attempt loop against the given
remote behaviour and returns the result together with the list of requests
actually sent.  The fallback branch corresponds to source lines 196-202. -/
def make_request (c : ClientConfig) (method endpoint : String) (retry : Bool)
    (jsonBody : Option Json) (b : Behaviour) : APIResult × List SentRequest :=
  match attemptLoop (requestOf c method endpoint jsonBody) b
      (numAttempts c method retry) 0 (numAttempts c method retry) with
  | some res => res
  | none =>
      (fallbackResult,
       List.replicate (numAttempts c method retry) (requestOf c method endpoint jsonBody))

/-- `CloudAPIClient.get_field_agent_config`: single `client.get` with
`self.headers`, raw-text success at 200, dedicated mapping for 404/401, any
other received status mapped to a server error; transport failures mapped
without retry. -/
def get_field_agent_config (c : ClientConfig) (client_code field_code : String)
    (outcome : AttemptOutcome) : APIResult × List SentRequest :=
  let endpoint := "/admin/fields/" ++ client_code ++ "/" ++ field_code ++ "/agent-config"
  let req : SentRequest :=
    { method := "GET"
      url := c.base_url ++ endpoint
      headers := c.headers
      jsonBody := none }
  match outcome with
  | AttemptOutcome.resp r =>
      if r.status_code = 200 then
        ({ ok := true, data := some (Json.str r.text), error_type := none,
           status := some 200, detail := none }, [req])
      else if r.status_code = 404 then
        ({ ok := false, data := none, error_type := some ErrorType.notFound,
           status := some 404, detail := some (Json.str "Config not found") }, [req])
      else if r.status_code = 401 then
        ({ ok := false, data := none, error_type := some ErrorType.unauthorized,
           status := some 401, detail := some (Json.str "Unauthorized") }, [req])
      else
        ({ ok := false, data := none, error_type := some ErrorType.serverError,
           status := some r.status_code,
           detail := some (Json.str "Failed to download config") }, [req])
  | AttemptOutcome.timeout =>
      ({ ok := false, data := none, error_type := some ErrorType.timeout,
         status := none, detail := some (Json.str "Request timeout") }, [req])
  | AttemptOutcome.networkError =>
      ({ ok := false, data := none, error_type := some ErrorType.network,
         status := none, detail := some (Json.str "Network error") }, [req])
  | AttemptOutcome.otherExc msg =>
      ({ ok := false, data := none, error_type := some ErrorType.unknown,
         status := none, detail := some (Json.str msg) }, [req])

/-- The fixed catalogue of resource operations (source lines 208-314). -/
inductive Operation where
  | get_clients
  | get_fields
  | get_whatsapp_users
  | get_whatsapp_user (user_id : String)
  | create_whatsapp_user (data : Json)
  | update_whatsapp_user (user_id : String) (data : Json)
  | delete_whatsapp_user (user_id : String)
  | get_client_detail (client_code : String)
  | create_client (data : Json)
  | update_client (client_code : String) (data : Json)
  | delete_client (client_code : String)
  | get_field_detail (client_code field_code : String)
  | create_field (data : Json)
  | update_field (client_code field_code : String) (data : Json)
  | delete_field (client_code field_code : String)
  | download_agent_config (client_code field_code : String)

/-- Whether the operation is the special raw-text download
(`get_field_agent_config`), which bypasses `_make_request`. -/
def Operation.isRawDownload : Operation → Bool
  | Operation.download_agent_config _ _ => true
  | _ => false

/-- Each catalogue operation as the thin wrapper it is in the source: a fixed
method, path, retry flag and payload handed to `_make_request`, except the
raw download which calls `get_field_agent_config`. -/
def Operation.run (op : Operation) (c : ClientConfig) (b : Behaviour) :
    APIResult × List SentRequest :=
  match op with
  | Operation.get_clients => make_request c "GET" "/admin/clients" true none b
  | Operation.get_fields => make_request c "GET" "/admin/fields" true none b
  | Operation.get_whatsapp_users =>
      make_request c "GET" "/admin/whatsapp-users" true none b
  | Operation.get_whatsapp_user uid =>
      make_request c "GET" ("/admin/whatsapp-users/" ++ uid) true none b
  | Operation.create_whatsapp_user d =>
      make_request c "POST" "/admin/whatsapp-users" false (some d) b
  | Operation.update_whatsapp_user uid d =>
      make_request c "PUT" ("/admin/whatsapp-users/" ++ uid) false (some d) b
  | Operation.delete_whatsapp_user uid =>
      make_request c "DELETE" ("/admin/whatsapp-users/" ++ uid) false none b
  | Operation.get_client_detail cc =>
      make_request c "GET" ("/admin/clients/" ++ cc) true none b
  | Operation.create_client d =>
      make_request c "POST" "/admin/clients" false (some d) b
  | Operation.update_client cc d =>
      make_request c "PATCH" ("/admin/clients/" ++ cc) false (some d) b
  | Operation.delete_client cc =>
      make_request c "DELETE" ("/admin/clients/" ++ cc) false none b
  | Operation.get_field_detail cc fc =>
      make_request c "GET" ("/admin/fields/" ++ cc ++ "/" ++ fc) true none b
  | Operation.create_field d =>
      make_request c "POST" "/admin/fields" false (some d) b
  | Operation.update_field cc fc d =>
      make_request c "PATCH" ("/admin/fields/" ++ cc ++ "/" ++ fc) false (some d) b
  | Operation.delete_field cc fc =>
      make_request c "DELETE" ("/admin/fields/" ++ cc ++ "/" ++ fc) false none b
  | Operation.download_agent_config cc fc =>
      get_field_agent_config c cc fc (b 0)

/-- Whether an attempt outcome is one of the two retry triggers
(`httpx.TimeoutException` or `httpx.NetworkError`/`httpx.ConnectError`). -/
def isTransient : AttemptOutcome → Bool
  | AttemptOutcome.timeout => true
  | AttemptOutcome.networkError => true
  | _ => false

/-- Whether an attempt outcome is a received HTTP response. -/
def isResp : AttemptOutcome → Bool
  | AttemptOutcome.resp _ => true
  | _ => false

/-- The result the loop body returns when the outcome at the current attempt
is not retried (a received response or an unexpected exception), and the
terminal result for a transient failure on the last attempt. -/
def terminalResult : AttemptOutcome → APIResult
  | AttemptOutcome.resp r => classifyResponse r
  | AttemptOutcome.timeout => timeoutResult
  | AttemptOutcome.networkError => networkResult
  | AttemptOutcome.otherExc msg => unknownExcResult msg

lemma classifyResponse_ok_iff (r : HttpResponse) :
    ((classifyResponse r).ok = true) ↔ (classifyResponse r).error_type = none := by
  unfold classifyResponse
  repeat' split
  all_goals simp

lemma classifyResponse_status (r : HttpResponse) :
    (classifyResponse r).status = some r.status_code := by
  unfold classifyResponse
  repeat' split
  all_goals simp_all

lemma terminalResult_ok_iff (o : AttemptOutcome) :
    ((terminalResult o).ok = true) ↔ (terminalResult o).error_type = none := by
  cases o with
  | resp r => exact classifyResponse_ok_iff r
  | timeout => simp [terminalResult, timeoutResult]
  | networkError => simp [terminalResult, networkResult]
  | otherExc m => simp [terminalResult, unknownExcResult]

lemma attemptLoop_some_ok (req : SentRequest) (b : Behaviour) (attempts : Nat) :
    ∀ fuel attempt res, attemptLoop req b attempts attempt fuel = some res →
      ((res.1.ok = true) ↔ res.1.error_type = none) := by
  intro fuel
  induction fuel with
  | zero =>
      intro attempt res h
      simp [attemptLoop] at h
  | succ f ih =>
      intro attempt res h
      unfold attemptLoop at h
      split at h
      · rename_i r heq
        simp only [Option.some.injEq] at h
        subst h
        exact classifyResponse_ok_iff r
      · split at h
        · rw [Option.map_eq_some'] at h
          obtain ⟨p, hp, hpe⟩ := h
          subst hpe
          exact ih (attempt + 1) p hp
        · simp only [Option.some.injEq] at h
          subst h
          simp [timeoutResult]
      · split at h
        · rw [Option.map_eq_some'] at h
          obtain ⟨p, hp, hpe⟩ := h
          subst hpe
          exact ih (attempt + 1) p hp
        · simp only [Option.some.injEq] at h
          subst h
          simp [networkResult]
      · rename_i m heq
        simp only [Option.some.injEq] at h
        subst h
        simp [unknownExcResult]

lemma attemptLoop_ne_none (req : SentRequest) (b : Behaviour) (attempts : Nat) :
    ∀ fuel attempt, attempts ≤ attempt + fuel → attempt < attempts →
      attemptLoop req b attempts attempt fuel ≠ none := by
  intro fuel
  induction fuel with
  | zero =>
      intro attempt hle hlt
      exfalso
      omega
  | succ f ih =>
      intro attempt hle hlt
      unfold attemptLoop
      split
      · simp
      · split
        · rename_i heq hif
          intro hc
          rw [Option.map_eq_none'] at hc
          exact ih (attempt + 1) (by omega) (by omega) hc
        · simp
      · split
        · rename_i heq hif
          intro hc
          rw [Option.map_eq_none'] at hc
          exact ih (attempt + 1) (by omega) (by omega) hc
        · simp
      · simp

lemma attemptLoop_trace_const (req : SentRequest) (b : Behaviour) (attempts : Nat) :
    ∀ fuel attempt res, attemptLoop req b attempts attempt fuel = some res →
      ∀ q ∈ res.2, q = req := by
  intro fuel
  induction fuel with
  | zero =>
      intro attempt res h
      simp [attemptLoop] at h
  | succ f ih =>
      intro attempt res h
      unfold attemptLoop at h
      split at h
      · simp only [Option.some.injEq] at h
        subst h
        simp
      · split at h
        · rw [Option.map_eq_some'] at h
          obtain ⟨p, hp, hpe⟩ := h
          subst hpe
          intro q hq
          simp only [List.mem_cons] at hq
          rcases hq with hq | hq
          · exact hq
          · exact ih (attempt + 1) p hp q hq
        · simp only [Option.some.injEq] at h
          subst h
          simp
      · split at h
        · rw [Option.map_eq_some'] at h
          obtain ⟨p, hp, hpe⟩ := h
          subst hpe
          intro q hq
          simp only [List.mem_cons] at hq
          rcases hq with hq | hq
          · exact hq
          · exact ih (attempt + 1) p hp q hq
        · simp only [Option.some.injEq] at h
          subst h
          simp
      · simp only [Option.some.injEq] at h
        subst h
        simp

lemma attemptLoop_status_none_iff (req : SentRequest) (b : Behaviour) (attempts : Nat) :
    ∀ fuel attempt res, attemptLoop req b attempts attempt fuel = some res →
      res.1.ok = false →
      (res.1.status = none ↔ isResp (b (attempt + res.2.length - 1)) = false) := by
  intro fuel
  induction fuel with
  | zero =>
      intro attempt res h
      simp [attemptLoop] at h
  | succ f ih =>
      intro attempt res h hok
      unfold attemptLoop at h
      split at h
      · rename_i r heq
        simp only [Option.some.injEq] at h
        subst h
        simp [classifyResponse_status, heq, isResp]
      · rename_i heq
        split at h
        · rw [Option.map_eq_some'] at h
          obtain ⟨p, hp, hpe⟩ := h
          subst hpe
          have hidx : attempt + (p.2.length + 1) - 1 = attempt + 1 + p.2.length - 1 := by
            omega
          simp only [List.length_cons, hidx]
          exact ih (attempt + 1) p hp hok
        · simp only [Option.some.injEq] at h
          subst h
          simp [timeoutResult, heq, isResp]
      · rename_i heq
        split at h
        · rw [Option.map_eq_some'] at h
          obtain ⟨p, hp, hpe⟩ := h
          subst hpe
          have hidx : attempt + (p.2.length + 1) - 1 = attempt + 1 + p.2.length - 1 := by
            omega
          simp only [List.length_cons, hidx]
          exact ih (attempt + 1) p hp hok
        · simp only [Option.some.injEq] at h
          subst h
          simp [networkResult, heq, isResp]
      · rename_i m heq
        simp only [Option.some.injEq] at h
        subst h
        simp [unknownExcResult, heq, isResp]

lemma attemptLoop_transient_len (req : SentRequest) (b : Behaviour) (attempts : Nat)
    (htrans : ∀ i, isTransient (b i) = true) :
    ∀ fuel attempt, attempt + fuel = attempts → 0 < fuel →
      ∃ res, attemptLoop req b attempts attempt fuel = some res ∧
        res.2.length = fuel := by
  intro fuel
  induction fuel with
  | zero =>
      intro attempt heq hpos
      exact absurd hpos (by omega)
  | succ f ih =>
      intro attempt heq hpos
      unfold attemptLoop
      cases hb : b attempt with
      | resp r =>
          have := htrans attempt
          rw [hb] at this
          simp [isTransient] at this
      | otherExc m =>
          have := htrans attempt
          rw [hb] at this
          simp [isTransient] at this
      | timeout =>
          by_cases hcond : attempt < attempts - 1
          · obtain ⟨p, hp, hlen⟩ := ih (attempt + 1) (by omega) (by omega)
            refine ⟨(p.1, req :: p.2), ?_, ?_⟩
            · simp [hp, hcond]
            · simp [hlen]
          · have hf : f = 0 := by omega
            refine ⟨(timeoutResult, [req]), ?_, ?_⟩
            · simp [hcond]
            · simp [hf]
      | networkError =>
          by_cases hcond : attempt < attempts - 1
          · obtain ⟨p, hp, hlen⟩ := ih (attempt + 1) (by omega) (by omega)
            refine ⟨(p.1, req :: p.2), ?_, ?_⟩
            · simp [hp, hcond]
            · simp [hlen]
          · have hf : f = 0 := by omega
            refine ⟨(networkResult, [req]), ?_, ?_⟩
            · simp [hcond]
            · simp [hf]

lemma attemptLoop_first_decisive (req : SentRequest) (b : Behaviour) (attempts : Nat) :
    ∀ fuel attempt i, (∀ j, attempt ≤ j → j < i → isTransient (b j) = true) →
      isTransient (b i) = false → attempt ≤ i → i < attempts →
      attempts ≤ attempt + fuel →
      attemptLoop req b attempts attempt fuel =
        some (terminalResult (b i), List.replicate (i + 1 - attempt) req) := by
  intro fuel
  induction fuel with
  | zero =>
      intro attempt i htrans hdec hle hlt hfuel
      exfalso
      omega
  | succ f ih =>
      intro attempt i htrans hdec hle hlt hfuel
      unfold attemptLoop
      rcases Nat.lt_or_ge attempt i with hai | hai
      · have htr : isTransient (b attempt) = true := htrans attempt (le_refl _) hai
        have hcond : attempt < attempts - 1 := by omega
        have hrep : i + 1 - attempt = (i + 1 - (attempt + 1)) + 1 := by omega
        have hrec := ih (attempt + 1)  i
          (fun j h1 h2 => htrans j (by omega) h2) hdec (by omega) hlt (by omega)
        cases hb : b attempt with
        | resp r =>
            rw [hb] at htr
            simp [isTransient] at htr
        | otherExc m =>
            rw [hb] at htr
            simp [isTransient] at htr
        | timeout =>
            rw [hrep, List.replicate_succ]
            simp [hcond, hrec]
        | networkError =>
            rw [hrep, List.replicate_succ]
            simp [hcond, hrec]
      · have hae : attempt = i := by omega
        subst hae
        have hrep : attempt + 1 - attempt = 1 := by omega
        cases hb : b attempt with
        | timeout =>
            rw [hb] at hdec
            simp [isTransient] at hdec
        | networkError =>
            rw [hb] at hdec
            simp [isTransient] at hdec
        | resp r =>
            rw [hrep]
            simp [terminalResult]
        | otherExc m =>
            rw [hrep]
            simp [terminalResult]

lemma numAttempts_pos (c : ClientConfig) (method : String) (retry : Bool) :
    0 < numAttempts c method retry := by
  unfold numAttempts
  split
  · omega
  · omega

lemma make_request_loop_some (c : ClientConfig) (method endpoint : String)
    (retry : Bool) (jsonBody : Option Json) (b : Behaviour) :
    ∃ p, attemptLoop (requestOf c method endpoint jsonBody) b
        (numAttempts c method retry) 0 (numAttempts c method retry) = some p ∧
      make_request c method endpoint retry jsonBody b = p := by
  cases hl : attemptLoop (requestOf c method endpoint jsonBody) b
      (numAttempts c method retry) 0 (numAttempts c method retry) with
  | none =>
      exact absurd hl
        (attemptLoop_ne_none _ _ _ _ 0 (by omega) (numAttempts_pos c method retry))
  | some p =>
      refine ⟨p, rfl, ?_⟩
      unfold make_request
      rw [hl]

lemma make_request_ok_iff (c : ClientConfig) (method endpoint : String)
    (retry : Bool) (jsonBody : Option Json) (b : Behaviour) :
    ((make_request c method endpoint retry jsonBody b).1.ok = true) ↔
      (make_request c method endpoint retry jsonBody b).1.error_type = none := by
  obtain ⟨p, hp, hmk⟩ := make_request_loop_some c method endpoint retry jsonBody b
  rw [hmk]
  exact attemptLoop_some_ok _ _ _ _ 0 p hp

lemma agent_config_ok_iff (c : ClientConfig) (cc fc : String) (o : AttemptOutcome) :
    ((get_field_agent_config c cc fc o).1.ok = true) ↔
      (get_field_agent_config c cc fc o).1.error_type = none := by
  cases o with
  | resp r =>
      unfold get_field_agent_config
      repeat' split
      all_goals simp
  | timeout => simp [get_field_agent_config]
  | networkError => simp [get_field_agent_config]
  | otherExc m => simp [get_field_agent_config]

lemma make_request_first_decisive (c : ClientConfig) (method endpoint : String)
    (retry : Bool) (jsonBody : Option Json) (b : Behaviour) (i : Nat)
    (htrans : ∀ j, j < i → isTransient (b j) = true)
    (hdec : isTransient (b i) = false) (hi : i < numAttempts c method retry) :
    make_request c method endpoint retry jsonBody b =
      (terminalResult (b i),
       List.replicate (i + 1) (requestOf c method endpoint jsonBody)) := by
  have hloop := attemptLoop_first_decisive (requestOf c method endpoint jsonBody) b
    (numAttempts c method retry) (numAttempts c method retry) 0 i
    (fun j _ h2 => htrans j h2) hdec (Nat.zero_le i) hi (by omega)
  obtain ⟨p, hp, hmk⟩ := make_request_loop_some c method endpoint retry jsonBody b
  rw [hp] at hloop
  simp only [Option.some.injEq] at hloop
  rw [hmk, hloop]
  simp

lemma make_request_resp0 (c : ClientConfig) (method endpoint : String)
    (retry : Bool) (jsonBody : Option Json) (b : Behaviour) (r : HttpResponse)
    (hb0 : b 0 = AttemptOutcome.resp r) :
    make_request c method endpoint retry jsonBody b =
      (classifyResponse r, [requestOf c method endpoint jsonBody]) := by
  have h := make_request_first_decisive c method endpoint retry jsonBody b 0
    (fun j hj => absurd hj (by omega)) (by rw [hb0]; rfl)
    (numAttempts_pos c method retry)
  rw [hb0] at h
  simpa [terminalResult] using h

lemma make_request_trace_mem (c : ClientConfig) (method endpoint : String)
    (retry : Bool) (jsonBody : Option Json) (b : Behaviour) (q : SentRequest)
    (hq : q ∈ (make_request c method endpoint retry jsonBody b).2) :
    q = requestOf c method endpoint jsonBody := by
  obtain ⟨p, hp, hmk⟩ := make_request_loop_some c method endpoint retry jsonBody b
  rw [hmk] at hq
  exact attemptLoop_trace_const _ _ _ _ 0 p hp q hq

lemma agent_config_trace (c : ClientConfig) (cc fc : String) (o : AttemptOutcome)
    (q : SentRequest) (hq : q ∈ (get_field_agent_config c cc fc o).2) :
    q.headers = c.headers := by
  cases o with
  | resp r =>
      unfold get_field_agent_config at hq
      repeat' split at hq
      all_goals simp only [List.mem_singleton] at hq
      all_goals subst hq
      all_goals rfl
  | timeout =>
      simp only [get_field_agent_config, List.mem_singleton] at hq
      subst hq
      rfl
  | networkError =>
      simp only [get_field_agent_config, List.mem_singleton] at hq
      subst hq
      rfl
  | otherExc m =>
      simp only [get_field_agent_config, List.mem_singleton] at hq
      subst hq
      rfl

lemma classifyResponse_409 (r : HttpResponse) (h : r.status_code = 409) :
    classifyResponse r =
      { ok := false, data := none, error_type := some ErrorType.conflict,
        status := some 409, detail := some (jsonDetail r "Conflict error") } := by
  unfold classifyResponse
  simp [h]

lemma jsonDetail_field (r : HttpResponse) (fields : List (String × Json)) (v : Json)
    (fallback : String) (hj : r.jsonval = some (Json.obj fields))
    (hv : lookupField fields "detail" = some v) : jsonDetail r fallback = v := by
  simp [jsonDetail, hj, hv]

lemma attemptLoop_single (req : SentRequest) (b : Behaviour) :
    ∃ res, attemptLoop req b 1 0 1 = some res ∧ res.2.length = 1 := by
  unfold attemptLoop
  cases hb : b 0 with
  | resp r => exact ⟨(classifyResponse r, [req]), by simp, rfl⟩
  | timeout => exact ⟨(timeoutResult, [req]), by simp, rfl⟩
  | networkError => exact ⟨(networkResult, [req]), by simp, rfl⟩
  | otherExc m => exact ⟨(unknownExcResult m, [req]), by simp, rfl⟩

lemma rstripSlashes_append_slash (u : String) :
    rstripSlashes (u ++ "/") = rstripSlashes u := by
  unfold rstripSlashes
  have hdata : (u ++ "/").data = u.data ++ ['/'] := rfl
  rw [hdata, List.reverse_append]
  simp [List.dropWhile]

/-- A concrete client configuration for evaluating theorems on concrete
inputs (base URL, token, default timeout 10 and max_retries 2). -/
def testConfig : ClientConfig := clientInit "http://localhost:8001" "tok" 10 2

/-- Claim C1: for every operation of the catalogue and every remote behaviour
(any response status, timeout, network failure, or other exception), the
returned `APIResult` has `ok = true` if and only if `error_type` is absent. -/
theorem claim_C1_ok_iff_error_absent (op : Operation) (c : ClientConfig)
    (b : Behaviour) :
    ((Operation.run op c b).1.ok = true) ↔
      (Operation.run op c b).1.error_type = none := by
  cases op
  case download_agent_config cc fc => exact agent_config_ok_iff c cc fc (b 0)
  all_goals exact make_request_ok_iff _ _ _ _ _ _

/-- Claim C2: a retryable GET whose every attempt fails with a timeout or a
connection-level network failure performs exactly `max_retries + 1` attempts
(3 under the default configuration), and every POST/PATCH/PUT/DELETE request
performs exactly 1 attempt. -/
theorem claim_C2_attempt_counts (c : ClientConfig) (endpoint : String)
    (jsonBody : Option Json) (b : Behaviour) :
    ((∀ i, b i = AttemptOutcome.timeout ∨ b i = AttemptOutcome.networkError) →
      (make_request c "GET" endpoint true jsonBody b).2.length = c.max_retries + 1)
    ∧ (∀ method retry,
        method = "POST" ∨ method = "PATCH" ∨ method = "PUT" ∨ method = "DELETE" →
        (make_request c method endpoint retry jsonBody b).2.length = 1) := by
  constructor
  · intro htrans
    have htr : ∀ i, isTransient (b i) = true := by
      intro i
      rcases htrans i with h | h <;> rw [h] <;> rfl
    have hatt : numAttempts c "GET" true = c.max_retries + 1 := by

      simp [numAttempts]
    obtain ⟨p, hp, hmk⟩ := make_request_loop_some c "GET" endpoint true jsonBody b
    obtain ⟨p', hp', hlen⟩ := attemptLoop_transient_len
      (requestOf c "GET" endpoint jsonBody) b (numAttempts c "GET" true) htr
      (numAttempts c "GET" true) 0 (by omega) (numAttempts_pos c "GET" true)
    rw [hp] at hp'
    simp only [Option.some.injEq] at hp'
    rw [hmk, hp', hlen, hatt]
  · intro method retry hm
    have hne : ¬(retry = true ∧ method = "GET") := by
      rcases hm with h | h | h | h <;> subst h <;> simp
    have hatt : numAttempts c method retry = 1 := by
      unfold numAttempts
      rw [if_neg hne]
    obtain ⟨p, hp, hmk⟩ := make_request_loop_some c method endpoint retry jsonBody b
    rw [hatt] at hp
    obtain ⟨p', hp', hlen⟩ := attemptLoop_single (requestOf c method endpoint jsonBody) b
    rw [hp] at hp'
    simp only [Option.some.injEq] at hp'
    rw [hmk, hp', hlen]

/-- Witness for claim C2 at a concrete input: an all-timeout GET with the
default configuration makes 3 attempts; a POST makes 1. -/
theorem claim_C2_attempt_counts_witness :
    (make_request testConfig "GET" "/admin/clients" true none
        (fun _ => AttemptOutcome.timeout)).2.length = 3
    ∧ (make_request testConfig "POST" "/admin/clients" false (some (Json.obj []))
        (fun _ => AttemptOutcome.timeout)).2.length = 1 := by
  constructor
  · exact (claim_C2_attempt_counts testConfig "/admin/clients" none
      (fun _ => AttemptOutcome.timeout)).1 (fun _ => Or.inl rfl)
  · exact (claim_C2_attempt_counts testConfig "/admin/clients" (some (Json.obj []))
      (fun _ => AttemptOutcome.timeout)).2 "POST" false (Or.inl rfl)

/-- Claim C9: the fallback result after the attempt loop in `_make_request`
is unreachable — for every configuration, request and remote behaviour the
loop returns on its final attempt in every branch (the loop never completes
without producing a result, so `make_request` never uses `fallbackResult`). -/
theorem claim_C9_fallback_unreachable (c : ClientConfig) (method endpoint : String)
    (retry : Bool) (jsonBody : Option Json) (b : Behaviour) :
    attemptLoop (requestOf c method endpoint jsonBody) b
      (numAttempts c method retry) 0 (numAttempts c method retry) ≠ none :=
  attemptLoop_ne_none _ _ _ _ 0 (by omega) (numAttempts_pos c method retry)

/-- Claim C10: the constructor strips trailing slashes from the base URL, so
a client built from `base_url ++ "/"` behaves identically (same requests,
same result) to one built from `base_url`, for every operation and remote
behaviour. -/
theorem claim_C10_trailing_slash (u tok : String) (t m : Nat) (op : Operation)
    (b : Behaviour) :
    Operation.run op (clientInit (u ++ "/") tok t m) b =
      Operation.run op (clientInit u tok t m) b := by
  have hc : clientInit (u ++ "/") tok t m = clientInit u tok t m := by
    unfold clientInit
    rw [rstripSlashes_append_slash]
  rw [hc]

/-- Counterexample to claim C3 as stated: on a GET whose first attempt raises
an unexpected exception (neither a timeout nor a connection-level network
failure — the result's `error_type` is `unknown`, not `timeout`/`network`),
the returned result still has `ok = false` with `status` absent.  So
"`status` absent iff the failure was a timeout or connection failure" fails
in the right-to-left reading of its left side: `status` can be absent on an
unexpected-exception failure too. -/
theorem claim_C3_counterexample :
    ((make_request testConfig "GET" "/admin/clients" true none
        (fun _ => AttemptOutcome.otherExc "boom")).1.ok = false)
    ∧ ((make_request testConfig "GET" "/admin/clients" true none
        (fun _ => AttemptOutcome.otherExc "boom")).1.status = none)
    ∧ ((make_request testConfig "GET" "/admin/clients" true none
        (fun _ => AttemptOutcome.otherExc "boom")).1.error_type =
          some ErrorType.unknown)
    ∧ ((make_request testConfig "GET" "/admin/clients" true none
        (fun _ => AttemptOutcome.otherExc "boom")).1.error_type ≠
          some ErrorType.timeout)
    ∧ ((make_request testConfig "GET" "/admin/clients" true none
        (fun _ => AttemptOutcome.otherExc "boom")).1.error_type ≠
          some ErrorType.network) := by
  refine ⟨rfl, rfl, rfl, ?_, ?_⟩ <;> decide

/-- Claim C3 (amended): for every result returned with `ok = false`, `status`
is absent if and only if the final attempt did not receive an HTTP response —
that is, it ended in a timeout, a connection-level network failure, or an
unexpected exception (in all three no HTTP exchange is recorded). -/
theorem claim_C3_amended_status_absent_iff (c : ClientConfig)
    (method endpoint : String) (retry : Bool) (jsonBody : Option Json)
    (b : Behaviour)
    (hok : (make_request c method endpoint retry jsonBody b).1.ok = false) :
    ((make_request c method endpoint retry jsonBody b).1.status = none ↔
      isResp (b ((make_request c method endpoint retry jsonBody b).2.length - 1)) =
        false) := by
  obtain ⟨p, hp, hmk⟩ := make_request_loop_some c method endpoint retry jsonBody b
  rw [hmk] at hok ⊢
  have h := attemptLoop_status_none_iff _ b _ _ 0 p hp hok
  simpa using h

/-- Witness for the amended claim C3 at a concrete input: an all-timeout GET
fails with `status` absent, and indeed its final attempt received no
response. -/
theorem claim_C3_amended_witness :
    ((make_request testConfig "GET" "/admin/clients" true none
        (fun _ => AttemptOutcome.timeout)).1.status = none ↔
      isResp ((fun _ => AttemptOutcome.timeout)
          ((make_request testConfig "GET" "/admin/clients" true none
            (fun _ => AttemptOutcome.timeout)).2.length - 1)) = false) :=
  claim_C3_amended_status_absent_iff testConfig "GET" "/admin/clients" true none
    (fun _ => AttemptOutcome.timeout) rfl

/-- Counterexample to claim C4 as stated: a received 202 response with an
empty body is claimed to be a success, but the code only treats 200, 201 and
204 as success; 202 falls through every specific branch and is classified as
an `unknown` error with `ok = false`. -/
theorem claim_C4_counterexample :
    ((make_request testConfig "GET" "/admin/clients" true none
        (fun _ => AttemptOutcome.resp ⟨202, "", none⟩)).1.ok = false)
    ∧ ((make_request testConfig "GET" "/admin/clients" true none
        (fun _ => AttemptOutcome.resp ⟨202, "", none⟩)).1.error_type =
          some ErrorType.unknown) :=
  ⟨rfl, rfl⟩

/-- Claim C4 (amended): a received response with status exactly 200, 201 or
204 yields `ok = true`, with the body decoded as JSON into `data` when the
status is not 204, the body is non-empty and decoding succeeds, and `data`
absent otherwise; a 2xx status other than 200/201/204 (such as 202) is not a
success: it yields `ok = false` with `error_type = unknown` regardless of its
body. -/
theorem claim_C4_amended_success_mapping (c : ClientConfig)
    (method endpoint : String) (retry : Bool) (jsonBody : Option Json)
    (b : Behaviour) (r : HttpResponse)
    (hb0 : b 0 = AttemptOutcome.resp r) :
    ((r.status_code = 200 ∨ r.status_code = 201 ∨ r.status_code = 204 →
       (make_request c method endpoint retry jsonBody b).1.ok = true
       ∧ (make_request c method endpoint retry jsonBody b).1.data =
           (if r.status_code = 204 ∨ r.text = "" then none else r.jsonval))
     ∧ (r.status_code ≠ 200 → r.status_code ≠ 201 → r.status_code ≠ 204 →
        200 ≤ r.status_code → r.status_code < 300 →
        (make_request c method endpoint retry jsonBody b).1.ok = false
        ∧ (make_request c method endpoint retry jsonBody b).1.error_type =
            some ErrorType.unknown)) := by
  rw [make_request_resp0 c method endpoint retry jsonBody b r hb0]
  constructor
  · intro hs
    unfold classifyResponse
    rw [if_pos hs]
    by_cases hempty : r.status_code = 204 ∨ r.text = ""
    · rw [if_pos hempty]
      simp [hempty]
    · rw [if_neg hempty]
      cases hj : r.jsonval with
      | some d => simp [hempty, hj]
      | none => simp [hempty, hj]
  · intro h200 h201 h204 hge hlt
    have h401 : r.status_code ≠ 401 := by omega
    have h404 : r.status_code ≠ 404 := by omega
    have h409 : r.status_code ≠ 409 := by omega
    have h422 : r.status_code ≠ 422 := by omega
    have h500 : ¬(500 ≤ r.status_code) := by omega
    unfold classifyResponse
    simp [h200, h201, h204, h401, h404, h409, h422, h500]

/-- Witness for the amended claim C4 at concrete inputs: a 200 response with
a JSON array body decodes into `data`, and a 202 response with an empty body
is an `unknown` error. -/
theorem claim_C4_amended_witness :
    ((make_request testConfig "GET" "/admin/clients" true none
        (fun _ => AttemptOutcome.resp ⟨200, "[]", some (Json.arr [])⟩)).1.ok = true)
    ∧ ((make_request testConfig "GET" "/admin/clients" true none
        (fun _ => AttemptOutcome.resp ⟨200, "[]", some (Json.arr [])⟩)).1.data =
          some (Json.arr []))
    ∧ ((make_request testConfig "GET" "/admin/clients" true none
        (fun _ => AttemptOutcome.resp ⟨202, "", none⟩)).1.ok = false)
    ∧ ((make_request testConfig "GET" "/admin/clients" true none
        (fun _ => AttemptOutcome.resp ⟨202, "", none⟩)).1.error_type =
          some ErrorType.unknown) := by
  have h1 := (claim_C4_amended_success_mapping testConfig "GET" "/admin/clients"
    true none (fun _ => AttemptOutcome.resp ⟨200, "[]", some (Json.arr [])⟩)
    ⟨200, "[]", some (Json.arr [])⟩ rfl).1 (Or.inl rfl)
  have h2 := (claim_C4_amended_success_mapping testConfig "GET" "/admin/clients"
    true none (fun _ => AttemptOutcome.resp ⟨202, "", none⟩)
    ⟨202, "", none⟩ rfl).2 (by decide) (by decide) (by decide) (by decide)
    (by decide)
  refine ⟨h1.1, ?_, h2.1, h2.2⟩
  rw [h1.2]
  rfl

lemma make_request_409 (c : ClientConfig) (method endpoint : String)
    (retry : Bool) (jsonBody : Option Json) (b : Behaviour) (r : HttpResponse)
    (hb0 : b 0 = AttemptOutcome.resp r) (h409 : r.status_code = 409) :
    (make_request c method endpoint retry jsonBody b).1.error_type =
      some ErrorType.conflict
    ∧ ∀ fields v, r.jsonval = some (Json.obj fields) →
        lookupField fields "detail" = some v →
        (make_request c method endpoint retry jsonBody b).1.detail = some v := by
  rw [make_request_resp0 c method endpoint retry jsonBody b r hb0]
  constructor
  · simp [classifyResponse_409 r h409]
  · intro fields v hj hv
    simp [classifyResponse_409 r h409, jsonDetail_field r fields v _ hj hv]

/-- Counterexample to claim C5 as stated: the agent-config download is an
operation of the catalogue, yet on a received 409 response (even with a JSON
object body carrying a `detail` field) it classifies the result as
`server_error`, not `conflict`. -/
theorem claim_C5_counterexample :
    ((get_field_agent_config testConfig "CLI001" "F001"
        (AttemptOutcome.resp ⟨409, "\x7b\"detail\": \"dup\"\x7d",
          some (Json.obj [("detail", Json.str "dup")])⟩)).1.error_type =
      some ErrorType.serverError)
    ∧ ((get_field_agent_config testConfig "CLI001" "F001"
        (AttemptOutcome.resp ⟨409, "\x7b\"detail\": \"dup\"\x7d",
          some (Json.obj [("detail", Json.str "dup")])⟩)).1.error_type ≠
      some ErrorType.conflict) := by
  refine ⟨rfl, ?_⟩
  decide

/-- Claim C5 (amended): for every catalogue operation that delegates to the
JSON request executor (that is, every operation except the raw-text
agent-config download), a received 409 response yields
`error_type = conflict`, with `detail` equal to the body's `detail` field
when the body is a JSON object containing one; the agent-config download
instead maps a 409 to `server_error`. -/
theorem claim_C5_amended_conflict_mapping (op : Operation) (c : ClientConfig)
    (b : Behaviour) (r : HttpResponse) (hb0 : b 0 = AttemptOutcome.resp r)
    (h409 : r.status_code = 409) :
    ((op.isRawDownload = false →
        (Operation.run op c b).1.error_type = some ErrorType.conflict
        ∧ ∀ fields v, r.jsonval = some (Json.obj fields) →
            lookupField fields "detail" = some v →
            (Operation.run op c b).1.detail = some v)
     ∧ (op.isRawDownload = true →
        (Operation.run op c b).1.error_type = some ErrorType.serverError)) := by
  cases op
  case download_agent_config cc fc =>
    constructor
    · intro hcontra
      exact Bool.noConfusion hcontra
    · intro _
      show (get_field_agent_config c cc fc (b 0)).1.error_type =
        some ErrorType.serverError
      rw [hb0]
      simp [get_field_agent_config, h409]
  all_goals exact ⟨fun _ => make_request_409 _ _ _ _ _ _ _ hb0 h409,
    fun hcontra => Bool.noConfusion hcontra⟩

/-- Witness for the amended claim C5 at a concrete input: creating a client
that already exists (409 with a `detail` field) yields a conflict result
carrying that detail. -/
theorem claim_C5_amended_witness :
    ((Operation.run (Operation.create_client (Json.obj [])) testConfig
        (fun _ => AttemptOutcome.resp ⟨409, "\x7b\"detail\": \"dup\"\x7d",
          some (Json.obj [("detail", Json.str "dup")])⟩)).1.error_type =
      some ErrorType.conflict)
    ∧ ((Operation.run (Operation.create_client (Json.obj [])) testConfig
        (fun _ => AttemptOutcome.resp ⟨409, "\x7b\"detail\": \"dup\"\x7d",
          some (Json.obj [("detail", Json.str "dup")])⟩)).1.detail =
      some (Json.str "dup")) := by
  have h := (claim_C5_amended_conflict_mapping
    (Operation.create_client (Json.obj [])) testConfig
    (fun _ => AttemptOutcome.resp ⟨409, "\x7b\"detail\": \"dup\"\x7d",
      some (Json.obj [("detail", Json.str "dup")])⟩)
    ⟨409, "\x7b\"detail\": \"dup\"\x7d",
      some (Json.obj [("detail", Json.str "dup")])⟩ rfl rfl).1 rfl
  exact ⟨h.1, h.2 [("detail", Json.str "dup")] (Json.str "dup") rfl rfl⟩

/-- Claim C6: a retry only ever follows a timeout or connection-level network
failure; as soon as any attempt receives an HTTP response it is classified
and returned with no further attempt, and an unexpected exception likewise
terminates the operation immediately with `error_type = unknown`, even on a
retryable request. -/
theorem claim_C6_retry_triggers (c : ClientConfig) (method endpoint : String)
    (retry : Bool) (jsonBody : Option Json) (b : Behaviour) (i : Nat)
    (htrans : ∀ j, j < i → isTransient (b j) = true)
    (hi : i < numAttempts c method retry) :
    ((∀ r, b i = AttemptOutcome.resp r →
        make_request c method endpoint retry jsonBody b =
          (classifyResponse r,
           List.replicate (i + 1) (requestOf c method endpoint jsonBody)))
     ∧ (∀ msg, b i = AttemptOutcome.otherExc msg →
        make_request c method endpoint retry jsonBody b =
          (unknownExcResult msg,
           List.replicate (i + 1) (requestOf c method endpoint jsonBody)))) := by
  constructor
  · intro r hbi
    have h := make_request_first_decisive c method endpoint retry jsonBody b i
      htrans (by rw [hbi]; rfl) hi
    rw [hbi] at h
    exact h
  · intro msg hbi
    have h := make_request_first_decisive c method endpoint retry jsonBody b i
      htrans (by rw [hbi]; rfl) hi
    rw [hbi] at h
    exact h

/-- Witness for claim C6 at a concrete input: a GET that times out once and
then receives a 200 response stops after the second attempt and returns the
classification of that response. -/
theorem claim_C6_retry_triggers_witness :
    make_request testConfig "GET" "/admin/clients" true none
        (fun n => if n = 0 then AttemptOutcome.timeout
          else AttemptOutcome.resp ⟨200, "", none⟩) =
      (classifyResponse ⟨200, "", none⟩,
       List.replicate 2 (requestOf testConfig "GET" "/admin/clients" none)) :=
  (claim_C6_retry_triggers testConfig "GET" "/admin/clients" true none
    (fun n => if n = 0 then AttemptOutcome.timeout
      else AttemptOutcome.resp ⟨200, "", none⟩) 1
    (fun j hj => by
      have h0 : j = 0 := Nat.lt_one_iff.mp hj
      rw [h0]
      rfl)
    (by decide)).1 ⟨200, "", none⟩ rfl

/-- Claim C7: the agent-config download makes exactly one attempt for every
outcome, and maps a received response as 200 → success with the raw text as
`data`, 401 → `unauthorized`, 404 → `not_found`, and any other received
status → `server_error`. -/
theorem claim_C7_agent_config_mapping (c : ClientConfig) (cc fc : String)
    (o : AttemptOutcome) :
    ((get_field_agent_config c cc fc o).2.length = 1
     ∧ ∀ r, o = AttemptOutcome.resp r →
        ((r.status_code = 200 →
           (get_field_agent_config c cc fc o).1.ok = true
           ∧ (get_field_agent_config c cc fc o).1.data = some (Json.str r.text))
         ∧ (r.status_code = 401 →
            (get_field_agent_config c cc fc o).1.error_type =
              some ErrorType.unauthorized)
         ∧ (r.status_code = 404 →
            (get_field_agent_config c cc fc o).1.error_type =
              some ErrorType.notFound)
         ∧ (r.status_code ≠ 200 → r.status_code ≠ 401 → r.status_code ≠ 404 →
            (get_field_agent_config c cc fc o).1.error_type =
              some ErrorType.serverError))) := by
  constructor
  · cases o with
    | resp r =>
        unfold get_field_agent_config
        repeat' split
        all_goals rfl
    | timeout => rfl
    | networkError => rfl
    | otherExc m => rfl
  · intro r ho
    subst ho
    refine ⟨?_, ?_, ?_, ?_⟩
    · intro h200
      constructor <;> simp [get_field_agent_config, h200]
    · intro h401
      simp [get_field_agent_config, h401]
    · intro h404
      simp [get_field_agent_config, h404]
    · intro h200 h401 h404
      simp [get_field_agent_config, h200, h401, h404]

/-- Witness for claim C7 at a concrete input: a 503 response to the download
is a `server_error` after exactly one attempt. -/
theorem claim_C7_agent_config_witness :
    ((get_field_agent_config testConfig "CLI001" "F001"
        (AttemptOutcome.resp ⟨503, "", none⟩)).2.length = 1)
    ∧ ((get_field_agent_config testConfig "CLI001" "F001"
        (AttemptOutcome.resp ⟨503, "", none⟩)).1.error_type =
      some ErrorType.serverError) := by
  have h := claim_C7_agent_config_mapping testConfig "CLI001" "F001"
    (AttemptOutcome.resp ⟨503, "", none⟩)
  exact ⟨h.1, (h.2 ⟨503, "", none⟩ rfl).2.2.2 (by decide) (by decide) (by decide)⟩

/-- Counterexample to claim C8 as stated: the raw-text agent-config download
does not omit the JSON content type — the single request it sends carries the
same header dict as every other operation, `Content-Type: application/json`
included. -/
theorem claim_C8_counterexample :
    ((get_field_agent_config testConfig "CLI001" "F001"
        AttemptOutcome.timeout).2.map SentRequest.headers) =
      [[("Authorization", "Bearer tok"),
        ("Content-Type", "application/json")]] := rfl

/-- Claim C8 (amended): every request attempt of every catalogue operation —
including the raw-text agent-config download — carries the bearer-token
`Authorization` header and the `Content-Type: application/json` header. -/
theorem claim_C8_amended_headers (op : Operation) (c : ClientConfig)
    (b : Behaviour) (q : SentRequest) (hq : q ∈ (Operation.run op c b).2) :
    ("Authorization", "Bearer " ++ c.admin_token) ∈ q.headers
    ∧ ("Content-Type", "application/json") ∈ q.headers := by
  have hh : q.headers = c.headers := by
    cases op
    case download_agent_config cc fc => exact agent_config_trace c cc fc (b 0) q hq
    all_goals {
      have hqe := make_request_trace_mem _ _ _ _ _ _ _ hq
      rw [hqe]
      rfl
    }
  rw [hh]
  simp [ClientConfig.headers]

/-- Witness for the amended claim C8 at a concrete input: the request sent by
a successful list-clients call carries both headers. -/
theorem claim_C8_amended_witness :
    ("Authorization", "Bearer tok") ∈
      (requestOf testConfig "GET" "/admin/clients" none).headers
    ∧ ("Content-Type", "application/json") ∈
      (requestOf testConfig "GET" "/admin/clients" none).headers := by
  have hq : requestOf testConfig "GET" "/admin/clients" none ∈
      (Operation.run Operation.get_clients testConfig
        (fun _ => AttemptOutcome.resp ⟨200, "", none⟩)).2 := by
    show requestOf testConfig "GET" "/admin/clients" none ∈
      [requestOf testConfig "GET" "/admin/clients" none]
    exact List.mem_singleton_self _
  exact claim_C8_amended_headers Operation.get_clients testConfig _ _ hq
